import Mathlib

/-!
Verification of the security-runbook-agent repository.

Shallow embedding of the repository's Lambda handlers and agent tools:

* `Triage.lambda_handler`        — src/src/tools/triage.py
* `EnrichmentTool.lambda_handler`— src/src/tools/enrichment.py
* `BrowserExec.lambda_handler`   — src/src/tools/browser_executor.py
* `NovaExec.lambda_handler`      — src/src/tools/nova_executor.py
* `SecurityAgent.request_quarantine_approval` — src/src/agent/security_agent.py
* `IncidentStore`                — modelled from the spec (no implementation
  under src/; only a DynamoDB table declaration exists in the CDK stack)

Python floats are modelled as exact rationals (ℚ); Python `dict.get` with a
default is modelled as `Option.getD`; the Lambda `context` object is the
`LambdaContext` structure; wall-clock readings (`datetime.utcnow()`) are an
explicit input parameter.
-/

/-- The AWS Lambda context object; the handlers only ever read
`aws_request_id`. -/
structure LambdaContext where
  aws_request_id : String
deriving DecidableEq

namespace Triage

/-- The `enrichment` dictionary read by triage.py: `.get("reputation")`
(default `None`) and `.get("confidence", 0)`. -/
structure EnrichmentData where
  reputation : Option String
  confidence : Option ℚ
deriving DecidableEq

/-- The triage Lambda event: `event.get("alert", {})` (read but unused by the
handler) and `event.get("enrichment", {})`. -/
structure Event where
  alert : List (String × String)
  enrichment : EnrichmentData
deriving DecidableEq

/-- The plain JSON object returned by triage.py. -/
structure Verdict where
  severity : String
  score : ℚ
  requires_approval : Bool
deriving DecidableEq

/-- Embedding of `lambda_handler` in src/src/tools/triage.py. -/
def lambda_handler (event : Event) (context : LambdaContext) : Verdict :=
  let alert := event.alert
  let enrichment := event.enrichment
  let score : ℚ :=
    if enrichment.reputation = some "malicious" then 0 + 50
    else if enrichment.reputation = some "suspicious" then 0 + 30
    else 0
  let score := score + enrichment.confidence.getD 0 * 30
  if score ≥ 80 then ⟨"CRITICAL", score, true⟩
  else if score ≥ 60 then ⟨"HIGH", score, true⟩
  else if score ≥ 40 then ⟨"MEDIUM", score, false⟩
  else ⟨"LOW", score, false⟩

/-- The scoring formula exactly as the spec states it (§4.2): start at 0, add
50 for `malicious` else 30 for `suspicious`, then add `confidence * 30`.
Stated independently of the code, for comparison with `lambda_handler`. -/
def specScore (e : Event) : ℚ :=
  (if e.enrichment.reputation = some "malicious" then (0 : ℚ) + 50
   else if e.enrichment.reputation = some "suspicious" then (0 : ℚ) + 30
   else 0)
  + e.enrichment.confidence.getD 0 * 30

/-- The spec's threshold map, highest first: ≥80 CRITICAL, ≥60 HIGH,
≥40 MEDIUM, else LOW. -/
def specSeverity (score : ℚ) : String :=
  if score ≥ 80 then "CRITICAL"
  else if score ≥ 60 then "HIGH"
  else if score ≥ 40 then "MEDIUM"
  else "LOW"

/-- The approval flag the spec assigns to each score band. -/
def specRequiresApproval (score : ℚ) : Bool :=
  if score ≥ 80 then true
  else if score ≥ 60 then true
  else if score ≥ 40 then false
  else false

/-- The threshold dispatch on an arbitrary score, factored out of
`lambda_handler`. -/
theorem verdict_cases (s : ℚ) :
    (if s ≥ 80 then (⟨"CRITICAL", s, true⟩ : Verdict)
     else if s ≥ 60 then ⟨"HIGH", s, true⟩
     else if s ≥ 40 then ⟨"MEDIUM", s, false⟩
     else ⟨"LOW", s, false⟩)
    = ⟨specSeverity s, s, specRequiresApproval s⟩ := by
  unfold specSeverity specRequiresApproval
  by_cases h1 : s ≥ 80
  · simp [h1]
  · by_cases h2 : s ≥ 60
    · simp [h1, h2]
    · by_cases h3 : s ≥ 40
      · simp [h1, h2, h3]
      · simp [h1, h2, h3]

/-- The handler computes exactly the spec's score and threshold map. -/
theorem handler_characterization (e : Event) (c : LambdaContext) :
    lambda_handler e c
      = ⟨specSeverity (specScore e), specScore e, specRequiresApproval (specScore e)⟩ :=
  verdict_cases (specScore e)

end Triage

namespace EnrichmentTool

/-- One entry of the hard-coded `threat_data` dictionary in enrichment.py. -/
structure RepData where
  reputation : String
  confidence : ℚ
  category : String
deriving DecidableEq

/-- The enrichment Lambda event: `event.get("indicator", "")` and
`event.get("type", "ip")`. -/
structure Event where
  indicator : Option String
  type : Option String
deriving DecidableEq

/-- The result object serialized into the 200 response body. -/
structure Result where
  indicator : String
  type : String
  reputation : String
  confidence : ℚ
  category : String
  sources : List String
deriving DecidableEq

/-- An enrichment Lambda response: either a 400 error body or a 200 body. -/
inductive Response
  | clientError (statusCode : Nat) (error : String)
  | ok (statusCode : Nat) (body : Result)
deriving DecidableEq

/-- The literal mock `threat_data` dictionary of enrichment.py:
`threat_data.get(indicator_type, {})` followed by
`lookup_dict.get(indicator, ...)`, collapsed into one two-key lookup. -/
def threat_data (indicator_type : String) (indicator : String) : Option RepData :=
  match indicator_type, indicator with
  | "ip", "192.168.1.100" => some ⟨"suspicious", 0.65, "C2_server"⟩
  | "ip", "10.0.0.50" => some ⟨"malicious", 0.92, "malware_host"⟩
  | "domain", "malicious-site.com" => some ⟨"malicious", 0.98, "phishing"⟩
  | "hash", "d41d8cd98f00b204e9800998ecf8427e" => some ⟨"malicious", 0.88, "ransomware"⟩
  | _, _ => none

/-- Embedding of `lambda_handler` in src/src/tools/enrichment.py. -/
def lambda_handler (event : Event) (context : LambdaContext) : Response :=
  let indicator := event.indicator.getD ""
  let indicator_type := event.type.getD "ip"
  if indicator = "" then
    .clientError 400 "No indicator provided"
  else
    let reputation_data :=
      (threat_data indicator_type indicator).getD ⟨"unknown", 0.0, "unknown"⟩
    .ok 200 ⟨indicator, indicator_type, reputation_data.reputation,
      reputation_data.confidence, reputation_data.category, ["Mock Threat Intel DB"]⟩

end EnrichmentTool

namespace BrowserExec

/-- The `parameters` dictionary of browser_executor.py; each key is read with
`.get` and a default. -/
structure Params where
  target_ip : Option String
  reason : Option String
  hostname : Option String
  domain : Option String
deriving DecidableEq

/-- The browser-executor Lambda event: `event.get("action")` and
`event.get("parameters", {})`. -/
structure Event where
  action : Option String
  parameters : Params
deriving DecidableEq

/-- The result dictionary built for a recognized action. Fields that only the
`quarantine` branch sets are `Option`s. -/
structure ExecResult where
  success : Bool
  action : String
  target : String
  reason : Option String
  timestamp : String
  session_id : Option String
  recording_url : Option String
  message : String
  audit_trail : Option (List String)
deriving DecidableEq

/-- A browser-executor Lambda response: a 400 error body or a 200 body. -/
inductive Response
  | clientError (statusCode : Nat) (error : String)
  | ok (statusCode : Nat) (body : ExecResult)
deriving DecidableEq

/-- Embedding of `lambda_handler` in src/src/tools/browser_executor.py.
`utcnow` is the value of `datetime.utcnow().isoformat()` at this
invocation. Python's `if not action` is true for both a missing key and an
empty string. -/
def lambda_handler (utcnow : String) (event : Event) (context : LambdaContext) :
    Response :=
  match event.action with
  | none => .clientError 400 "No action specified"
  | some action =>
    if action = "" then .clientError 400 "No action specified"
    else
      let params := event.parameters
      if action = "quarantine" then
        let target_ip := params.target_ip.getD "unknown"
        let reason := params.reason.getD "Security alert"
        .ok 200 ⟨true, "quarantine", target_ip, some reason, utcnow,
          some ("demo-session-" ++ context.aws_request_id.take 8),
          some "https://demo-recordings.s3.amazonaws.com/session-123.mp4",
          "Demo: Successfully quarantined IP " ++ target_ip,
          some ["Navigated to firewall console",
                "Added " ++ target_ip ++ " to blocklist",
                "Saved configuration",
                "Verified IP is blocked"]⟩
      else if action = "isolate" then
        let hostname := params.hostname.getD "unknown"
        .ok 200 ⟨true, "isolate", hostname, none, utcnow, none, none,
          "Demo: Successfully isolated endpoint " ++ hostname, none⟩
      else if action = "block_domain" then
        let domain := params.domain.getD "unknown"
        .ok 200 ⟨true, "block_domain", domain, none, utcnow, none, none,
          "Demo: Successfully blocked domain " ++ domain, none⟩
      else .clientError 400 ("Unknown action: " ++ action)

end BrowserExec

namespace NovaExec

/-- The `parameters` dictionary of nova_executor.py; both keys are accessed
with `params[...]`, which raises `KeyError` when absent. -/
structure Params where
  target_ip : Option String
  reason : Option String
deriving DecidableEq

/-- The nova-executor Lambda event. -/
structure Event where
  action : Option String
  parameters : Params
deriving DecidableEq

/-- Behaviour of the external `bedrock_agentcore` backend for one invocation:
which of the three calls made by `quarantine_host` succeed, the session id a
successful `create_browser_session` returns, and the payload fields the later
calls return. -/
structure Backend where
  createOk : Bool
  sessionId : String
  invokeOk : Bool
  recordingOk : Bool
  recordingUrl : Option String
  screenshotUrl : Option String
  actionLog : Option (List String)
deriving DecidableEq

/-- One call made to the external backend, in invocation order. -/
inductive Call
  | create_browser_session
  | invoke_browser_action (sessionId : String)
  | get_browser_session_recording (sessionId : String)
  | delete_browser_session (sessionId : String)
deriving DecidableEq

/-- The dictionary `quarantine_host` returns on success. -/
structure QuarantineRecord where
  success : Bool
  target : String
  action : String
  session_id : String
  recording_url : Option String
  screenshot_url : Option String
  audit_trail : Option (List String)
deriving DecidableEq

/-- What `lambda_handler` produces: a normal return, the
`{"error": "Unknown action"}` dictionary, or a propagated Python exception. -/
inductive Outcome
  | ok (r : QuarantineRecord)
  | unknownAction
  | raised (msg : String)
deriving DecidableEq

/-- Embedding of `SecurityActionExecutor.quarantine_host` in
src/src/tools/nova_executor.py. Returns the outcome, the final value of
`self.session_id`, and the trace of backend calls made, in order. A failing
backend call raises; `self.session_id` is assigned right after
`create_browser_session` succeeds. -/
def quarantine_host (b : Backend) (target_ip : String) (reason : String) :
    Outcome × Option String × List Call :=
  if b.createOk = false then
    (.raised "create_browser_session failed", none, [.create_browser_session])
  else
    let sid := b.sessionId
    if b.invokeOk = false then
      (.raised "invoke_browser_action failed", some sid,
        [.create_browser_session, .invoke_browser_action sid])
    else if b.recordingOk = false then
      (.raised "get_browser_session_recording failed", some sid,
        [.create_browser_session, .invoke_browser_action sid,
         .get_browser_session_recording sid])
    else
      (.ok ⟨true, target_ip, "quarantine", sid, b.recordingUrl,
          b.screenshotUrl, b.actionLog⟩,
        some sid,
        [.create_browser_session, .invoke_browser_action sid,
         .get_browser_session_recording sid])

/-- Embedding of `SecurityActionExecutor.cleanup`: deletes the browser session
iff `self.session_id` is set. -/
def cleanup (session_id : Option String) : List Call :=
  match session_id with
  | some sid => [.delete_browser_session sid]
  | none => []

/-- Embedding of `lambda_handler` in src/src/tools/nova_executor.py. The
`try/finally` makes `executor.cleanup()` run on every exit path; a missing
`target_ip`/`reason` key raises `KeyError` before any backend call. The second
component is the full trace of backend calls including the finally block. -/
def lambda_handler (b : Backend) (event : Event) (context : LambdaContext) :
    Outcome × List Call :=
  if event.action = some "quarantine" then
    match event.parameters.target_ip, event.parameters.reason with
    | some target_ip, some reason =>
      let (outcome, sid, calls) := quarantine_host b target_ip reason
      (outcome, calls ++ cleanup sid)
    | none, _ => (.raised "KeyError: target_ip", cleanup none)
    | some _, none => (.raised "KeyError: reason", cleanup none)
  else
    (.unknownAction, cleanup none)

end NovaExec

namespace SecurityAgent

/-- Embedding of the `request_quarantine_approval` tool in
src/src/agent/security_agent.py: the demo auto-approves — both the
HIGH/CRITICAL branch and the fallthrough return `True`. -/
def request_quarantine_approval (target : String) (severity : String)
    (reason : String) : Bool :=
  if severity = "HIGH" ∨ severity = "CRITICAL" then
    true
  else
    true

end SecurityAgent

namespace IncidentStore

/-- Modelled from the spec: the WorkflowEngine incident states of §4.1.
No WorkflowEngine or IncidentStateStore implementation exists under src/;
only the DynamoDB table declaration in the CDK stack refers to it. -/
inductive IncidentState
  | RECEIVED
  | ENRICHING
  | CLASSIFIED
  | AWAITING_APPROVAL
  | REMEDIATING
  | REMEDIATED
  | DENIED
  | FAILED
  | CLOSED
deriving DecidableEq

/-- Modelled from the spec: the SeverityVerdict fields of §3. -/
structure SpecVerdict where
  severity : String
  score : ℚ
  requiresApproval : Bool
deriving DecidableEq

/-- Modelled from the spec: the state-transition events appended to an
incident's history (§4.1 transitions, §6 persisted event log). -/
inductive Ev
  | ingest (alertId : String)
  | enriched (indicator : String) (reputation : String) (confidence : ℚ)
  | classified (v : SpecVerdict)
  | approvalRequested (requestId : String)
  | approvalDecided (approved : Bool)
  | approvalExpired
  | remediationStarted (actionId : String)
  | remediationSucceeded (actionId : String)
  | remediationFailed
  | closed
deriving DecidableEq

/-- Modelled from the spec: the Incident snapshot (§3), restricted to the
fields the state machine updates. -/
structure Incident where
  alertId : Option String
  enrichments : List (String × String × ℚ)
  verdict : Option SpecVerdict
  state : IncidentState
deriving DecidableEq

/-- The empty incident snapshot replay starts from. -/
def emptyIncident : Incident := ⟨none, [], none, .RECEIVED⟩

/-- Modelled from the spec: applying one event to a snapshot, following the
§4.1 transition table; an event that does not apply in the current state is
folded in as a no-op (duplicate/out-of-order events are absorbed). -/
def applyEvent (inc : Incident) (e : Ev) : Incident :=
  match e with
  | .ingest a =>
    if inc.state = .RECEIVED then
      { inc with alertId := some a, state := .ENRICHING }
    else inc
  | .enriched i r c =>
    if inc.state = .ENRICHING then
      { inc with enrichments := inc.enrichments ++ [(i, r, c)] }
    else inc
  | .classified v =>
    if inc.state = .ENRICHING then
      { inc with verdict := some v, state := .CLASSIFIED }
    else inc
  | .approvalRequested _ =>
    match inc.state, inc.verdict with
    | .CLASSIFIED, some v =>
      if v.requiresApproval then { inc with state := .AWAITING_APPROVAL } else inc
    | _, _ => inc
  | .remediationStarted _ =>
    match inc.state, inc.verdict with
    | .CLASSIFIED, some v =>
      if v.requiresApproval then inc else { inc with state := .REMEDIATING }
    | _, _ => inc
  | .approvalDecided approved =>
    if inc.state = .AWAITING_APPROVAL then
      { inc with state := if approved then .REMEDIATING else .DENIED }
    else inc
  | .approvalExpired =>
    if inc.state = .AWAITING_APPROVAL then { inc with state := .DENIED } else inc
  | .remediationSucceeded _ =>
    if inc.state = .REMEDIATING then { inc with state := .REMEDIATED } else inc
  | .remediationFailed =>
    if inc.state = .REMEDIATING then { inc with state := .FAILED } else inc
  | .closed =>
    if inc.state = .REMEDIATED ∨ inc.state = .DENIED ∨ inc.state = .FAILED then
      { inc with state := .CLOSED }
    else inc

/-- Modelled from the spec: the IncidentStateStore for one incident — the
ordered append-only event history plus the current snapshot (§4.5, §6). -/
structure StoreState where
  history : List Ev
  current : Incident
deriving DecidableEq

/-- A store with no events and the empty snapshot. -/
def initStore : StoreState := ⟨[], emptyIncident⟩

/-- Modelled from the spec: `append(incidentId, event)` — the event is
appended to the history and applied to the snapshot (§4.5). -/
def append (s : StoreState) (e : Ev) : StoreState :=
  ⟨s.history ++ [e], applyEvent s.current e⟩

/-- Store states reachable from the initial store by appends. -/
inductive Reachable : StoreState → Prop
  | init : Reachable initStore
  | step {s : StoreState} (e : Ev) : Reachable s → Reachable (append s e)

end IncidentStore

/-- C3: the severity classifier computes score = 0, plus 50 if the enrichment
reputation is "malicious" else plus 30 if "suspicious", plus confidence * 30,
and maps the score by thresholds 80/60/40 to CRITICAL/HIGH/MEDIUM/LOW; in
particular malicious with confidence 0.92 scores 77.6 and is HIGH with
approval required, and suspicious with confidence 0.65 scores 49.5 and is
MEDIUM with no approval required. -/
theorem C3_triage_scoring_policy :
    (∀ (e : Triage.Event) (c : LambdaContext),
      Triage.lambda_handler e c
        = ⟨Triage.specSeverity (Triage.specScore e), Triage.specScore e,
           Triage.specRequiresApproval (Triage.specScore e)⟩)
    ∧ (∀ c : LambdaContext,
        Triage.lambda_handler ⟨[], ⟨some "malicious", some 0.92⟩⟩ c
          = ⟨"HIGH", 77.6, true⟩)
    ∧ (∀ c : LambdaContext,
        Triage.lambda_handler ⟨[], ⟨some "suspicious", some 0.65⟩⟩ c
          = ⟨"MEDIUM", 49.5, false⟩) := by
  refine ⟨fun e c => Triage.handler_characterization e c, fun c => ?_, fun c => ?_⟩
  · rw [Triage.handler_characterization]
    have hs : Triage.specScore ⟨[], ⟨some "malicious", some 0.92⟩⟩ = 77.6 := by
      show (if (some "malicious" : Option String) = some "malicious" then (0 : ℚ) + 50
          else if (some "malicious" : Option String) = some "suspicious" then (0 : ℚ) + 30
          else 0) + (some (0.92 : ℚ)).getD 0 * 30 = 77.6
      rw [if_pos rfl]
      norm_num [Option.getD_some]
    rw [hs]
    norm_num [Triage.specSeverity, Triage.specRequiresApproval]
  · rw [Triage.handler_characterization]
    have hs : Triage.specScore ⟨[], ⟨some "suspicious", some 0.65⟩⟩ = 49.5 := by
      show (if (some "suspicious" : Option String) = some "malicious" then (0 : ℚ) + 50
          else if (some "suspicious" : Option String) = some "suspicious" then (0 : ℚ) + 30
          else 0) + (some (0.65 : ℚ)).getD 0 * 30 = 49.5
      rw [if_neg (by decide), if_pos rfl]
      norm_num [Option.getD_some]
    rw [hs]
    norm_num [Triage.specSeverity, Triage.specRequiresApproval]

/-- C4: the severity classifier is deterministic and side-effect free — its
verdict depends only on the (alert, enrichment) event, so two invocations
with identical events (and arbitrary Lambda contexts) return identical
severity, score and approval flag. -/
theorem C4_triage_deterministic (e1 e2 : Triage.Event) (c1 c2 : LambdaContext)
    (h : e1 = e2) :
    Triage.lambda_handler e1 c1 = Triage.lambda_handler e2 c2 := by
  subst h
  rfl

/-- Witness for C4: a concrete event, two distinct request contexts. -/
theorem C4_triage_deterministic_witness :
    (⟨[], ⟨some "malicious", some 0.92⟩⟩ : Triage.Event)
        = ⟨[], ⟨some "malicious", some 0.92⟩⟩
    ∧ Triage.lambda_handler ⟨[], ⟨some "malicious", some 0.92⟩⟩ ⟨"req-a"⟩
        = Triage.lambda_handler ⟨[], ⟨some "malicious", some 0.92⟩⟩ ⟨"req-b"⟩ :=
  ⟨rfl, C4_triage_deterministic _ _ _ _ rfl⟩

/-- C5: for every input, the classifier's requires_approval flag is true iff
the returned severity is HIGH or CRITICAL. -/
theorem C5_approval_iff_high_or_critical (e : Triage.Event) (c : LambdaContext) :
    (Triage.lambda_handler e c).requires_approval = true
      ↔ ((Triage.lambda_handler e c).severity = "HIGH"
          ∨ (Triage.lambda_handler e c).severity = "CRITICAL") := by
  rw [Triage.handler_characterization]
  unfold Triage.specSeverity Triage.specRequiresApproval
  by_cases h1 : Triage.specScore e ≥ 80
  · simp [h1]
  · by_cases h2 : Triage.specScore e ≥ 60
    · simp [h1, h2]
    · by_cases h3 : Triage.specScore e ≥ 40
      · simp [h1, h2, h3]
      · simp [h1, h2, h3]

/-- C10: when the enrichment reputation is neither "malicious" nor
"suspicious" and the confidence lies in [0,1], the score is confidence * 30,
hence at most 30 and below every higher threshold, so the verdict is LOW with
no approval required. -/
theorem C10_non_malicious_low (e : Triage.Event) (c : LambdaContext)
    (h1 : e.enrichment.reputation ≠ some "malicious")
    (h2 : e.enrichment.reputation ≠ some "suspicious")
    (h3 : 0 ≤ e.enrichment.confidence.getD 0)
    (h4 : e.enrichment.confidence.getD 0 ≤ 1) :
    Triage.lambda_handler e c
      = ⟨"LOW", e.enrichment.confidence.getD 0 * 30, false⟩
    ∧ (Triage.lambda_handler e c).score ≤ 30 := by
  have hscore : Triage.specScore e = e.enrichment.confidence.getD 0 * 30 := by
    unfold Triage.specScore
    rw [if_neg h1, if_neg h2]
    ring
  have hle : Triage.specScore e ≤ 30 := by
    rw [hscore]
    linarith
  have h80 : ¬ Triage.specScore e ≥ 80 := by linarith
  have h60 : ¬ Triage.specScore e ≥ 60 := by linarith
  have h40 : ¬ Triage.specScore e ≥ 40 := by linarith
  refine ⟨?_, ?_⟩
  · rw [Triage.handler_characterization]
    unfold Triage.specSeverity Triage.specRequiresApproval
    rw [if_neg h80, if_neg h60, if_neg h40, if_neg h80, if_neg h60, if_neg h40,
      hscore]
  · rw [Triage.handler_characterization]
    exact hle

/-- Witness for C10: reputation "unknown" with confidence 1 yields LOW. -/
theorem C10_non_malicious_low_witness :
    ((⟨[], ⟨some "unknown", some 1⟩⟩ : Triage.Event).enrichment.reputation
        ≠ some "malicious")
    ∧ ((⟨[], ⟨some "unknown", some 1⟩⟩ : Triage.Event).enrichment.reputation
        ≠ some "suspicious")
    ∧ (0 ≤ (⟨[], ⟨some "unknown", some 1⟩⟩ : Triage.Event).enrichment.confidence.getD 0)
    ∧ ((⟨[], ⟨some "unknown", some 1⟩⟩ : Triage.Event).enrichment.confidence.getD 0 ≤ 1)
    ∧ (Triage.lambda_handler ⟨[], ⟨some "unknown", some 1⟩⟩ ⟨"req-c"⟩
        = ⟨"LOW",
            (⟨[], ⟨some "unknown", some 1⟩⟩ : Triage.Event).enrichment.confidence.getD 0 * 30,
            false⟩
      ∧ (Triage.lambda_handler ⟨[], ⟨some "unknown", some 1⟩⟩ ⟨"req-c"⟩).score ≤ 30) :=
  ⟨by decide, by decide, by simp, by simp,
    C10_non_malicious_low _ _ (by decide) (by decide) (by simp) (by simp)⟩

/-- C6: an enrichment lookup with a non-empty indicator whose (type,
indicator) pair is absent from the mock threat-intelligence data does not
fail: it returns a 200 result with reputation "unknown", confidence 0.0 and
category "unknown". -/
theorem C6_unknown_indicator_degrades (e : EnrichmentTool.Event)
    (c : LambdaContext)
    (h1 : e.indicator.getD "" ≠ "")
    (h2 : EnrichmentTool.threat_data (e.type.getD "ip") (e.indicator.getD "") = none) :
    EnrichmentTool.lambda_handler e c
      = .ok 200 ⟨e.indicator.getD "", e.type.getD "ip", "unknown", 0.0, "unknown",
          ["Mock Threat Intel DB"]⟩ := by
  simp only [EnrichmentTool.lambda_handler]
  rw [if_neg h1, h2]
  rfl

/-- Witness for C6: indicator "1.2.3.4" with the type key absent (defaulting
to "ip") is not in the mock data. -/
theorem C6_unknown_indicator_degrades_witness :
    ((⟨some "1.2.3.4", none⟩ : EnrichmentTool.Event).indicator.getD "" ≠ "")
    ∧ EnrichmentTool.threat_data
        ((⟨some "1.2.3.4", none⟩ : EnrichmentTool.Event).type.getD "ip")
        ((⟨some "1.2.3.4", none⟩ : EnrichmentTool.Event).indicator.getD "") = none
    ∧ EnrichmentTool.lambda_handler ⟨some "1.2.3.4", none⟩ ⟨"req-d"⟩
        = .ok 200 ⟨(⟨some "1.2.3.4", none⟩ : EnrichmentTool.Event).indicator.getD "",
            (⟨some "1.2.3.4", none⟩ : EnrichmentTool.Event).type.getD "ip",
            "unknown", 0.0, "unknown", ["Mock Threat Intel DB"]⟩ :=
  ⟨by decide, by rfl, C6_unknown_indicator_degrades _ _ (by decide) (by rfl)⟩

/-- C9: for every browser-executor event whose action is "quarantine",
"isolate" or "block_domain", the handler returns statusCode 200 with success
true regardless of the parameters; a missing target parameter defaults to
"unknown", and no failed or partially-applied outcome exists for a
recognized action. -/
theorem C9_recognized_actions_succeed (utcnow : String) (e : BrowserExec.Event)
    (c : LambdaContext) (a : String)
    (h : e.action = some a)
    (ha : a = "quarantine" ∨ a = "isolate" ∨ a = "block_domain") :
    ∃ r : BrowserExec.ExecResult,
      BrowserExec.lambda_handler utcnow e c = .ok 200 r
      ∧ r.success = true
      ∧ (e.parameters = ⟨none, none, none, none⟩ → r.target = "unknown") := by
  obtain ⟨oact, params⟩ := e
  have h' : oact = some a := h
  subst h'
  rcases ha with rfl | rfl | rfl
  · exact ⟨_, rfl, rfl, fun hp => by
      have hp' : params = ⟨none, none, none, none⟩ := hp
      subst hp'
      rfl⟩
  · exact ⟨_, rfl, rfl, fun hp => by
      have hp' : params = ⟨none, none, none, none⟩ := hp
      subst hp'
      rfl⟩
  · exact ⟨_, rfl, rfl, fun hp => by
      have hp' : params = ⟨none, none, none, none⟩ := hp
      subst hp'
      rfl⟩

/-- Witness for C9: an "isolate" event with no parameters succeeds with
target "unknown". -/
theorem C9_recognized_actions_succeed_witness :
    ((⟨some "isolate", ⟨none, none, none, none⟩⟩ : BrowserExec.Event).action
        = some "isolate")
    ∧ ("isolate" = "quarantine" ∨ "isolate" = "isolate" ∨ "isolate" = "block_domain")
    ∧ ∃ r : BrowserExec.ExecResult,
        BrowserExec.lambda_handler "2025-10-18T12:00:00"
            ⟨some "isolate", ⟨none, none, none, none⟩⟩ ⟨"req-e"⟩ = .ok 200 r
        ∧ r.success = true
        ∧ ((⟨some "isolate", ⟨none, none, none, none⟩⟩ : BrowserExec.Event).parameters
            = ⟨none, none, none, none⟩ → r.target = "unknown") :=
  ⟨rfl, Or.inr (Or.inl rfl),
    C9_recognized_actions_succeed _ _ _ _ rfl (Or.inr (Or.inl rfl))⟩

/-- C1 counterexample: the claim — a second invocation of the remediation
executor with the same actionId returns the identical RemediationRecord and
never re-executes — is false on browser_executor.py, which keeps no record
store: two invocations with the same quarantine event, at different
invocation times and request ids, return different records. -/
theorem C1_reinvocation_returns_different_record :
    BrowserExec.lambda_handler "2025-10-18T12:00:00"
        ⟨some "quarantine", ⟨some "10.0.0.50", some "malware host", none, none⟩⟩
        ⟨"req-000001"⟩
      ≠ BrowserExec.lambda_handler "2025-10-18T12:05:00"
        ⟨some "quarantine", ⟨some "10.0.0.50", some "malware host", none, none⟩⟩
        ⟨"req-000002"⟩ := by
  decide

/-- C1 amended: the browser executor keeps no idempotency store — every
invocation with a recognized action re-executes the (simulated) action and
builds a fresh record stamped with that invocation's clock reading; two
invocations with the same event agree on success, action, target, reason,
recording url, message and audit trail, return identical records whenever
the invocation time and context coincide, and return different records
whenever the clock readings differ (identical records force identical
timestamps). -/
theorem C1_amended_fresh_record_each_invocation (now1 now2 : String)
    (c1 c2 : LambdaContext) (e : BrowserExec.Event) (a : String)
    (h : e.action = some a)
    (ha : a = "quarantine" ∨ a = "isolate" ∨ a = "block_domain") :
    ∃ r1 r2 : BrowserExec.ExecResult,
      BrowserExec.lambda_handler now1 e c1 = .ok 200 r1
      ∧ BrowserExec.lambda_handler now2 e c2 = .ok 200 r2
      ∧ r1.timestamp = now1 ∧ r2.timestamp = now2
      ∧ r1.success = r2.success ∧ r1.action = r2.action ∧ r1.target = r2.target
      ∧ r1.reason = r2.reason ∧ r1.recording_url = r2.recording_url
      ∧ r1.message = r2.message ∧ r1.audit_trail = r2.audit_trail
      ∧ (now1 = now2 → c1 = c2 → r1 = r2)
      ∧ (r1 = r2 → now1 = now2) := by
  obtain ⟨oact, params⟩ := e
  have h' : oact = some a := h
  subst h'
  rcases ha with rfl | rfl | rfl
  · exact ⟨_, _, rfl, rfl, rfl, rfl, rfl, rfl, rfl, rfl, rfl, rfl, rfl,
      fun hn hc => by subst hn; subst hc; rfl,
      fun hr => congrArg BrowserExec.ExecResult.timestamp hr⟩
  · exact ⟨_, _, rfl, rfl, rfl, rfl, rfl, rfl, rfl, rfl, rfl, rfl, rfl,
      fun hn hc => by subst hn; subst hc; rfl,
      fun hr => congrArg BrowserExec.ExecResult.timestamp hr⟩
  · exact ⟨_, _, rfl, rfl, rfl, rfl, rfl, rfl, rfl, rfl, rfl, rfl, rfl,
      fun hn hc => by subst hn; subst hc; rfl,
      fun hr => congrArg BrowserExec.ExecResult.timestamp hr⟩

/-- Witness for the amended C1: two quarantine invocations at different
times and request ids. -/
theorem C1_amended_fresh_record_witness :
    ((⟨some "quarantine", ⟨some "10.0.0.50", some "malware host", none, none⟩⟩
        : BrowserExec.Event).action = some "quarantine")
    ∧ ("quarantine" = "quarantine" ∨ "quarantine" = "isolate"
        ∨ "quarantine" = "block_domain")
    ∧ ∃ r1 r2 : BrowserExec.ExecResult,
        BrowserExec.lambda_handler "2025-10-18T12:00:00"
            ⟨some "quarantine", ⟨some "10.0.0.50", some "malware host", none, none⟩⟩
            ⟨"req-000001"⟩ = .ok 200 r1
        ∧ BrowserExec.lambda_handler "2025-10-18T12:05:00"
            ⟨some "quarantine", ⟨some "10.0.0.50", some "malware host", none, none⟩⟩
            ⟨"req-000002"⟩ = .ok 200 r2
        ∧ r1.timestamp = "2025-10-18T12:00:00" ∧ r2.timestamp = "2025-10-18T12:05:00"
        ∧ r1.success = r2.success ∧ r1.action = r2.action ∧ r1.target = r2.target
        ∧ r1.reason = r2.reason ∧ r1.recording_url = r2.recording_url
        ∧ r1.message = r2.message ∧ r1.audit_trail = r2.audit_trail
        ∧ ("2025-10-18T12:00:00" = "2025-10-18T12:05:00"
            → (⟨"req-000001"⟩ : LambdaContext) = ⟨"req-000002"⟩ → r1 = r2)
        ∧ (r1 = r2 → "2025-10-18T12:00:00" = "2025-10-18T12:05:00") :=
  ⟨rfl, Or.inl rfl,
    C1_amended_fresh_record_each_invocation _ _ _ _ _ _ rfl (Or.inl rfl)⟩

/-- C2: the claim states that an approval request with no human decision
before its timeout becomes Expired and is treated as Denied, so remediation
never runs without an affirmative decision (fail-closed). The code has no
timeout, Expired or Denied path at all: the demo `request_quarantine_approval`
returns True unconditionally — both the HIGH/CRITICAL branch and the
fallthrough auto-approve — which the spec itself (§9) calls a safety defect
to be replaced. This theorem evaluates the code: approval is granted for
every input, so the fail-closed property is absent. -/
theorem C2_approval_auto_approves (target severity reason : String) :
    SecurityAgent.request_quarantine_approval target severity reason = true := by
  unfold SecurityAgent.request_quarantine_approval
  split <;> rfl

/-- C7: every browser session acquired during a nova-executor invocation is
released on every exit path: the try/finally always runs cleanup, so whenever
create_browser_session was called and succeeded, a delete_browser_session for
that session id appears in the backend-call trace — including when a later
backend call raises. -/
theorem C7_session_released_on_all_paths (b : NovaExec.Backend)
    (e : NovaExec.Event) (c : LambdaContext)
    (h : NovaExec.Call.create_browser_session ∈ (NovaExec.lambda_handler b e c).2
      ∧ b.createOk = true) :
    NovaExec.Call.delete_browser_session b.sessionId
      ∈ (NovaExec.lambda_handler b e c).2 := by
  obtain ⟨hmem, hok⟩ := h
  obtain ⟨oact, otip, ors⟩ := e
  by_cases hq : oact = some "quarantine"
  · subst hq
    cases otip with
    | none => simp [NovaExec.lambda_handler, NovaExec.cleanup] at hmem
    | some tip =>
      cases ors with
      | none => simp [NovaExec.lambda_handler, NovaExec.cleanup] at hmem
      | some rs =>
        cases hinv : b.invokeOk <;> cases hrec : b.recordingOk <;>
          simp [NovaExec.lambda_handler, NovaExec.quarantine_host,
            NovaExec.cleanup, hok, hinv, hrec]
  · simp [NovaExec.lambda_handler, NovaExec.cleanup, hq] at hmem

/-- Witness for C7: the backend's invoke_browser_action raises after a
successful create_browser_session; the session is still deleted. -/
theorem C7_session_released_witness :
    (NovaExec.Call.create_browser_session
        ∈ (NovaExec.lambda_handler ⟨true, "sess-01", false, true, none, none, none⟩
            ⟨some "quarantine", ⟨some "10.0.0.50", some "malware"⟩⟩ ⟨"req-f"⟩).2
      ∧ (⟨true, "sess-01", false, true, none, none, none⟩ : NovaExec.Backend).createOk
          = true)
    ∧ NovaExec.Call.delete_browser_session
        (⟨true, "sess-01", false, true, none, none, none⟩ : NovaExec.Backend).sessionId
        ∈ (NovaExec.lambda_handler ⟨true, "sess-01", false, true, none, none, none⟩
            ⟨some "quarantine", ⟨some "10.0.0.50", some "malware"⟩⟩ ⟨"req-f"⟩).2 :=
  ⟨⟨by decide, rfl⟩, C7_session_released_on_all_paths _ _ _ ⟨by decide, rfl⟩⟩

/-- C8: the current incident snapshot equals a left-fold of `applyEvent` over
the incident's ordered event history starting from the empty incident —
replaying the full history deterministically reconstructs every reachable
store's snapshot. -/
theorem C8_snapshot_is_replay (s : IncidentStore.StoreState)
    (h : IncidentStore.Reachable s) :
    s.current = s.history.foldl IncidentStore.applyEvent IncidentStore.emptyIncident := by
  induction h with
  | init => rfl
  | step e hr ih =>
    simp only [IncidentStore.append, List.foldl_append, List.foldl_cons,
      List.foldl_nil]
    rw [ih]

/-- Witness for C8: the store reached by appending one ingest event. -/
theorem C8_snapshot_is_replay_witness :
    IncidentStore.Reachable
        (IncidentStore.append IncidentStore.initStore (IncidentStore.Ev.ingest "SEC-2025-001"))
    ∧ (IncidentStore.append IncidentStore.initStore
          (IncidentStore.Ev.ingest "SEC-2025-001")).current
        = (IncidentStore.append IncidentStore.initStore
            (IncidentStore.Ev.ingest "SEC-2025-001")).history.foldl
            IncidentStore.applyEvent IncidentStore.emptyIncident :=
  ⟨IncidentStore.Reachable.step _ IncidentStore.Reachable.init,
    C8_snapshot_is_replay _ (IncidentStore.Reachable.step _ IncidentStore.Reachable.init)⟩
